import Mathlib

/-!
# NEFGPUInterface_JNI.h : the native boundary of the NengoGPU backend

The header `src/c/NengoGPU/NEFGPUInterface_JNI.h` has no control flow: it is
four prototypes, each preceded by a comment block that records the Java method
name and its JNI type signature.  The embedding is therefore the header as
data (`header`), one `Decl` per prototype, transcribed token for token, plus
the JNI type-signature grammar needed to compare a prototype with the
signature written above it.
-/

namespace NEFGPUInterface

/-! ## C types occurring in JNI prototypes -/

/-- The C-side types of `jni.h` that a generated prototype can mention. -/
inductive CType where
  | void
  | JNIEnvPtr
  | jclass
  | jobject
  | jboolean
  | jbyte
  | jchar
  | jshort
  | jint
  | jlong
  | jfloat
  | jdouble
  | jbooleanArray
  | jbyteArray
  | jcharArray
  | jshortArray
  | jintArray
  | jlongArray
  | jfloatArray
  | jdoubleArray
  | jobjectArray
  deriving DecidableEq, Repr

/-- One prototype of the header together with the comment block above it. -/
structure Decl where
  /-- The `Method:` line of the comment block. -/
  method : String
  /-- The `Signature:` line of the comment block. -/
  signature : String
  /-- The return type written between `JNIEXPORT` and `JNICALL`. -/
  ret : CType
  /-- The exported symbol. -/
  symbol : String
  /-- The parenthesised parameter list, in order. -/
  params : List CType
  deriving DecidableEq, Repr

open CType

/-- Header lines 10 to 16. -/
def nativeGetNumDevices : Decl where
  method := "nativeGetNumDevices"
  signature := "()I"
  ret := jint
  symbol := "Java_ca_nengo_util_impl_NEFGPUInterface_nativeGetNumDevices"
  params := [JNIEnvPtr, jclass]

/-- Header lines 18 to 24. -/
def nativeSetupRun : Decl where
  method := "nativeSetupRun"
  signature := "([[[[F[[I[[F[[[F[[[[F[[F[[I[[I[IF)V"
  ret := void
  symbol := "Java_ca_nengo_util_impl_NEFGPUInterface_nativeSetupRun"
  params := [JNIEnvPtr, jclass, jobjectArray, jobjectArray, jobjectArray, jobjectArray,
    jobjectArray, jobjectArray, jobjectArray, jobjectArray, jobjectArray, jintArray, jfloat,
    jintArray, jint]

/-- Header lines 26 to 32. -/
def nativeStep : Decl where
  method := "nativeStep"
  signature := "([[[F[[[F[[FFF)V"
  ret := void
  symbol := "Java_ca_nengo_util_impl_NEFGPUInterface_nativeStep"
  params := [JNIEnvPtr, jclass, jobjectArray, jobjectArray, jobjectArray, jfloat, jfloat]

/-- Header lines 34 to 40. -/
def nativeKill : Decl where
  method := "nativeKill"
  signature := "()V"
  ret := void
  symbol := "Java_ca_nengo_util_impl_NEFGPUInterface_nativeKill"
  params := [JNIEnvPtr, jclass]

/-- Every prototype of the header, in file order. -/
def header : List Decl :=
  [nativeGetNumDevices, nativeSetupRun, nativeStep, nativeKill]

/-- The class part of every exported symbol, as in the `Class:` comment lines. -/
def classStem : String := "Java_ca_nengo_util_impl_NEFGPUInterface_"

/-- The parameters a prototype takes after the two every JNI function starts with. -/
def Decl.args (d : Decl) : List CType := d.params.drop 2

/-! ## The JNI type-signature grammar -/

/-- The C type of a primitive signature letter. -/
def primType : Char → Option CType
  | 'Z' => some jboolean
  | 'B' => some jbyte
  | 'C' => some jchar
  | 'S' => some jshort
  | 'I' => some jint
  | 'J' => some jlong
  | 'F' => some jfloat
  | 'D' => some jdouble
  | _ => none

/-- The C type of a one-level array of a primitive signature letter. -/
def primArrayType : Char → Option CType
  | 'Z' => some jbooleanArray
  | 'B' => some jbyteArray
  | 'C' => some jcharArray
  | 'S' => some jshortArray
  | 'I' => some jintArray
  | 'J' => some jlongArray
  | 'F' => some jfloatArray
  | 'D' => some jdoubleArray
  | _ => none

/-- Skip a class name up to and including its closing semicolon. -/
def skipClass : List Char → Option (List Char)
  | [] => none
  | ';' :: cs => some cs
  | _ :: cs => skipClass cs

/-- Read one field type that is preceded by `depth` opening brackets: a primitive
    letter is a scalar at depth 0 and a primitive array at depth 1; an array of
    arrays, or of class instances, is an array of references. -/
def fieldType (depth : Nat) : List Char → Option (CType × List Char)
  | [] => none
  | '[' :: cs => fieldType (depth + 1) cs
  | 'L' :: cs => (skipClass cs).map fun rest => (if depth = 0 then jobject else jobjectArray, rest)
  | c :: cs =>
    match depth with
    | 0 => (primType c).map fun t => (t, cs)
    | 1 => (primArrayType c).map fun t => (t, cs)
    | _ + 2 => (primType c).map fun _ => (jobjectArray, cs)

/-- Read field types up to the closing parenthesis; `fuel` bounds the number read. -/
def paramTypes : Nat → List Char → Option (List CType × List Char)
  | _, ')' :: cs => some ([], cs)
  | 0, _ => none
  | fuel + 1, cs =>
    match fieldType 0 cs with
    | none => none
    | some (t, rest) => (paramTypes fuel rest).map fun (ts, r) => (t :: ts, r)

/-- The return part of a method signature. -/
def returnType : List Char → Option CType
  | ['V'] => some void
  | cs =>
    match fieldType 0 cs with
    | some (t, []) => some t
    | _ => none

/-- A method signature `(params)ret` as the C parameter types and return type. -/
def methodType (sig : String) : Option (List CType × CType) :=
  match sig.toList with
  | '(' :: cs =>
    match paramTypes cs.length cs with
    | none => none
    | some (ts, rest) => (returnType rest).map fun r => (ts, r)
  | _ => none

/-- The prototype of `d` is the one its signature comment describes. -/
def Decl.agreesWithSignature (d : Decl) : Bool :=
  methodType d.signature == some (d.args, d.ret)

/-! ## Classifying parameter types -/

/-- An array of object references: what a Java array of arrays is passed as. -/
def CType.isObjectArray : CType → Bool
  | jobjectArray => true
  | _ => false

/-- A flat buffer of primitive values. -/
def CType.isPrimitiveArray : CType → Bool
  | jbooleanArray | jbyteArray | jcharArray | jshortArray
  | jintArray | jlongArray | jfloatArray | jdoubleArray => true
  | _ => false

/-- Any array type. -/
def CType.isArray (t : CType) : Bool :=
  t.isObjectArray || t.isPrimitiveArray

end NEFGPUInterface

/-! ## The engine behind the boundary

The header only declares the entry points; the functions that implement them
are in the NengoGPU sources and not in this header.  What follows
is the lifecycle that sections 2, 3, 5, 6 and 8 of the specification describe
for them. -/

namespace NengoGPU

/-- Modelled from the spec: the numeric core that the implementations of
    `nativeSetupRun` and `nativeStep` delegate to is missing.  Its data (setup
    arguments, device buffers, step inputs and outputs, scalars) and its
    functions are kept abstract: `consistent` is the section 3 invariant that
    the array dimensions passed to setup agree with each other, `upload`
    allocates the device buffers and uploads the initial weights, `advance`
    moves all ensembles forward by one time increment, and `notBefore t s`
    says that time `s` is not earlier than time `t`. -/
structure Backend where
  Args : Type
  Buffers : Type
  Input : Type
  Output : Type
  Scalar : Type
  consistent : Args → Bool
  upload : Args → Scalar → Buffers
  advance : Buffers → Input → Scalar → Scalar → Buffers × Output
  notBefore : Scalar → Scalar → Bool

/-- Modelled from the spec: the lifecycle positions of section 5, before setup,
    between setup and kill, and after kill. -/
inductive Phase where
  | unconfigured
  | running
  | killed
  deriving DecidableEq, Repr

/-- Modelled from the spec: the engine state that the missing implementation
    keeps between calls (section 2): the devices the device manager
    enumerates, the lifecycle position, the device buffers that exist exactly
    between setup and kill, and the simulated time of the last step. -/
structure Engine (K : Backend) where
  devices : Nat
  phase : Phase
  buffers : Option K.Buffers
  clock : Option K.Scalar

variable {K : Backend}

/-- Modelled from the spec: the engine before any call, on a host with
    `devices` compute devices. -/
def Engine.init (K : Backend) (devices : Nat) : Engine K :=
  { devices := devices, phase := Phase.unconfigured, buffers := none, clock := none }

/-- Modelled from the spec: the missing body of `nativeGetNumDevices`, section 6
    "pure query, no state change".  Returns the count and the engine after. -/
def Engine.getNumDevices (e : Engine K) : Int × Engine K :=
  ((e.devices : Int), e)

/-- Modelled from the spec: the missing body of `nativeSetupRun`, section 6
    "must be called exactly once before any step": accepted only before any
    other setup and on consistent arguments, it allocates and uploads the
    device state.  A call that is not accepted changes nothing.  The flag is
    the out-of-band status of section 7: `true` when the call was accepted. -/
def Engine.setupRun (e : Engine K) (a : K.Args) (dt : K.Scalar) : Engine K × Bool :=
  match e.phase with
  | Phase.unconfigured =>
    if K.consistent a then
      ({ e with phase := Phase.running, buffers := some (K.upload a dt) }, true)
    else (e, false)
  | _ => (e, false)

/-- Modelled from the spec: whether a step at time `t` keeps simulated time
    monotonically non-decreasing. -/
def Engine.timeOk (e : Engine K) (t : K.Scalar) : Bool :=
  match e.clock with
  | none => true
  | some last => K.notBefore last t

/-- Modelled from the spec: the missing body of `nativeStep`, section 6 "must be
    called only after setup, time must be monotonically non-decreasing" and
    section 8 (b): between setup and kill it advances the buffers and
    overwrites the caller's output arrays `out`; anywhere else it is rejected
    and leaves both the engine and `out` as they were. -/
def Engine.step (e : Engine K) (inp : K.Input) (out : K.Output) (t dt : K.Scalar) :
    Engine K × K.Output × Bool :=
  match e.phase, e.buffers with
  | Phase.running, some b =>
    if e.timeOk t then
      ({ e with buffers := some (K.advance b inp t dt).1, clock := some t },
        (K.advance b inp t dt).2, true)
    else (e, out, false)
  | _, _ => (e, out, false)

/-- Modelled from the spec: the missing body of `nativeKill`, section 6 "must be
    called exactly once, terminal": paired with setup, it releases the device
    state; where there is nothing to release it is rejected. -/
def Engine.kill (e : Engine K) : Engine K × Bool :=
  match e.phase with
  | Phase.running => ({ e with phase := Phase.killed, buffers := none }, true)
  | _ => (e, false)

/-- One call through the boundary, with the arguments the host passes. -/
inductive Call (K : Backend) where
  | getNumDevices
  | setupRun (a : K.Args) (dt : K.Scalar)
  | step (inp : K.Input) (out : K.Output) (t dt : K.Scalar)
  | kill

/-- Whether the call is a setup. -/
def Call.isSetup : Call K → Bool
  | Call.setupRun _ _ => true
  | _ => false

/-- Whether the call is a step. -/
def Call.isStep : Call K → Bool
  | Call.step _ _ _ _ => true
  | _ => false

/-- The engine after one call. -/
def Engine.exec (e : Engine K) : Call K → Engine K
  | Call.getNumDevices => e.getNumDevices.2
  | Call.setupRun a dt => (e.setupRun a dt).1
  | Call.step inp out t dt => (e.step inp out t dt).1
  | Call.kill => e.kill.1

/-- The engine after a sequence of calls, first call first. -/
def Engine.run (e : Engine K) (cs : List (Call K)) : Engine K :=
  cs.foldl Engine.exec e

/-- A concrete backend for evaluating the lifecycle: buffers are lists of
    naturals, a step adds its input to every unit and outputs the sum. -/
@[reducible]
def sampleBackend : Backend where
  Args := List Nat
  Buffers := List Nat
  Input := Nat
  Output := Nat
  Scalar := Nat
  consistent := fun a => a.length == 2
  upload := fun a _ => a
  advance := fun b inp _ _ => (b.map (· + inp), (b.map (· + inp)).sum)
  notBefore := fun t s => decide (t ≤ s)

/-- A call sequence without a setup: a kill, a query and a step. -/
def sampleCalls : List (Call sampleBackend) :=
  [Call.kill, Call.getNumDevices, Call.step (5 : Nat) (0 : Nat) (1 : Nat) (1 : Nat)]

end NengoGPU

/-! ## The declarations of the header -/

namespace NEFGPUInterface

open CType

/-- Membership in `header`, case by case. -/
theorem mem_header_cases {d : Decl} (h : d ∈ header) :
    d = nativeGetNumDevices ∨ d = nativeSetupRun ∨ d = nativeStep ∨ d = nativeKill := by
  simpa [header] using h

/-- C1: the header declares exactly four entry points, nativeGetNumDevices,
    nativeSetupRun, nativeStep and nativeKill in that order and no others; the
    exported symbol of each is the class stem
    Java_ca_nengo_util_impl_NEFGPUInterface_ followed by the method name, and
    the four method names, hence the four symbols, are pairwise distinct. -/
theorem header_declares_four_entry_points :
    header.length = 4 ∧
    header.map (fun d => d.method) =
      ["nativeGetNumDevices", "nativeSetupRun", "nativeStep", "nativeKill"] ∧
    header.map (fun d => d.symbol) = header.map (fun d => classStem ++ d.method) ∧
    (header.map (fun d => d.method)).Nodup ∧
    (header.map (fun d => d.symbol)).Nodup := by
  decide

/-- C2: a declared entry point returns void unless it is the device count
    query; the query returns jint, and setup, step and kill return no value, so
    no declaration has a status return. -/
theorem return_type_void_unless_query (d : Decl) (h : d ∈ header) :
    d.ret = (if d = nativeGetNumDevices then jint else void) ∧
    nativeGetNumDevices.ret = jint ∧
    nativeSetupRun.ret = void ∧ nativeStep.ret = void ∧ nativeKill.ret = void := by
  rcases mem_header_cases h with rfl | rfl | rfl | rfl <;> decide

/-- Witness of C2 at the step entry point. -/
theorem return_type_void_unless_query_witness :
    nativeStep ∈ header ∧
    (nativeStep.ret = (if nativeStep = nativeGetNumDevices then jint else void) ∧
      nativeGetNumDevices.ret = jint ∧
      nativeSetupRun.ret = void ∧ nativeStep.ret = void ∧ nativeKill.ret = void) :=
  ⟨by decide, return_type_void_unless_query nativeStep (by decide)⟩

/-- C3 (the code at the failing declaration): the signature comment above
    nativeSetupRun describes ten parameters, eight arrays of references, one
    int array and one float, while the prototype below it takes thirteen,
    nine arrays of references, an int array, a float, a second int array and
    an int; the two do not agree. -/
theorem nativeSetupRun_prototype_differs_from_signature :
    methodType nativeSetupRun.signature =
      some (List.replicate 8 jobjectArray ++ [jintArray, jfloat], void) ∧
    nativeSetupRun.args =
      List.replicate 9 jobjectArray ++ [jintArray, jfloat, jintArray, jint] ∧
    nativeSetupRun.args.length = 13 ∧
    nativeSetupRun.ret = void ∧
    nativeSetupRun.agreesWithSignature = false := by
  decide

/-- C4: after JNIEnv* and jclass, nativeSetupRun takes a block of ten array
    parameters (nine arrays of references and one int array), then a float
    scalar, then an int array, then an int scalar as its last parameter; it has
    exactly one float scalar and exactly one int scalar. -/
theorem nativeSetupRun_parameter_order :
    nativeSetupRun.params.take 2 = [JNIEnvPtr, jclass] ∧
    nativeSetupRun.args =
      (List.replicate 9 jobjectArray ++ [jintArray]) ++ [jfloat, jintArray, jint] ∧
    (nativeSetupRun.args.take 10).all CType.isArray = true ∧
    nativeSetupRun.args.drop 10 = [jfloat, jintArray, jint] ∧
    nativeSetupRun.args.getLast? = some jint ∧
    nativeSetupRun.args.count jfloat = 1 ∧
    nativeSetupRun.args.count jint = 1 ∧
    nativeSetupRun.args.filter (fun t => !t.isArray) = [jfloat, jint] := by
  decide

/-- C5: after JNIEnv* and jclass, nativeStep takes exactly three arrays of
    references followed by two float scalars and returns void, and that is,
    parameter for parameter, what its signature ([[[F[[[F[[FFF)V describes. -/
theorem nativeStep_prototype_agrees_with_signature :
    nativeStep.params.take 2 = [JNIEnvPtr, jclass] ∧
    nativeStep.args = [jobjectArray, jobjectArray, jobjectArray, jfloat, jfloat] ∧
    nativeStep.ret = void ∧
    nativeStep.signature = "([[[F[[[F[[FFF)V" ∧
    methodType nativeStep.signature = some (nativeStep.args, nativeStep.ret) ∧
    nativeStep.agreesWithSignature = true := by
  decide

/-- C9 (as stated, refuted): it is not the case that every array parameter of
    every declared entry point is a flat primitive array; nativeSetupRun
    already takes an array of object references. -/
theorem array_parameters_not_all_flat :
    ¬ (∀ d ∈ header, ∀ t ∈ d.args, t.isArray = true → t.isPrimitiveArray = true) ∧
    nativeSetupRun ∈ header ∧ jobjectArray ∈ nativeSetupRun.args ∧
    jobjectArray.isArray = true ∧ jobjectArray.isPrimitiveArray = false := by
  decide

/-- C9 (amended): every array parameter of every declared entry point is
    either an array of object references or a flat int array; the flat ones
    are exactly the two jintArray of nativeSetupRun, nine parameters of
    nativeSetupRun and all three array parameters of nativeStep are arrays of
    object references, and the query and kill take no array. -/
theorem array_parameters_are_object_or_int_arrays :
    header.all (fun d => d.args.all fun t =>
      !t.isArray || t == jobjectArray || t == jintArray) = true ∧
    nativeSetupRun.args.filter CType.isPrimitiveArray = [jintArray, jintArray] ∧
    (nativeSetupRun.args.filter CType.isObjectArray).length = 9 ∧
    nativeStep.args.filter CType.isArray = [jobjectArray, jobjectArray, jobjectArray] ∧
    nativeGetNumDevices.args.filter CType.isArray = [] ∧
    nativeKill.args.filter CType.isArray = [] := by
  decide

/-- C10: every declared entry point starts with the parameters JNIEnv* and
    jclass, in that order, and has no jobject parameter anywhere: each is a
    static native method without a receiver, and what follows the first two
    parameters is arrays, floats and ints only. -/
theorem entry_points_are_static (d : Decl) (h : d ∈ header) :
    d.params.take 2 = [JNIEnvPtr, jclass] ∧ jobject ∉ d.params ∧
    d.args.all (fun t => t.isArray || t == jfloat || t == jint) = true := by
  rcases mem_header_cases h with rfl | rfl | rfl | rfl <;> decide

/-- Witness of C10 at the setup entry point. -/
theorem entry_points_are_static_witness :
    nativeSetupRun ∈ header ∧
    (nativeSetupRun.params.take 2 = [JNIEnvPtr, jclass] ∧ jobject ∉ nativeSetupRun.params ∧
      nativeSetupRun.args.all (fun t => t.isArray || t == jfloat || t == jint) = true) :=
  ⟨by decide, entry_points_are_static nativeSetupRun (by decide)⟩

end NEFGPUInterface

/-! ## The lifecycle of the engine -/

namespace NengoGPU

open NEFGPUInterface

variable {K : Backend}

/-- Before setup, a call that is not a setup leaves the engine as it is. -/
theorem exec_unconfigured (e : Engine K) (c : Call K) (hp : e.phase = Phase.unconfigured)
    (hc : c.isSetup = false) : e.exec c = e := by
  cases c with
  | getNumDevices => rfl
  | setupRun a dt => simp [Call.isSetup] at hc
  | step inp out t dt => simp [Engine.exec, Engine.step, hp]
  | kill => simp [Engine.exec, Engine.kill, hp]

/-- A sequence of calls without a setup leaves an engine that was never set up
    as it is. -/
theorem run_without_setup (e : Engine K) (cs : List (Call K))
    (hp : e.phase = Phase.unconfigured) (hcs : cs.all (fun c => !c.isSetup) = true) :
    e.run cs = e := by
  induction cs with
  | nil => rfl
  | cons c cs ih =>
    simp only [List.all_cons, Bool.and_eq_true, Bool.not_eq_true'] at hcs
    have hc : e.exec c = e := exec_unconfigured e c hp hcs.1
    simpa [Engine.run, List.foldl_cons, hc] using ih hcs.2

/-- Queries leave every engine as it is. -/
theorem run_queries (e : Engine K) (q : Nat) :
    e.run (List.replicate q Call.getNumDevices) = e := by
  induction q with
  | zero => rfl
  | succ q ih => simpa [Engine.run, List.replicate_succ, Engine.exec, Engine.getNumDevices] using ih

/-- After kill every call leaves the engine as it is. -/
theorem exec_killed (e : Engine K) (c : Call K) (hp : e.phase = Phase.killed) :
    e.exec c = e := by
  cases c with
  | getNumDevices => rfl
  | setupRun a dt => simp [Engine.exec, Engine.setupRun, hp]
  | step inp out t dt => simp [Engine.exec, Engine.step, hp]
  | kill => simp [Engine.exec, Engine.kill, hp]

/-- C6: the device count query takes no parameter after JNIEnv* and jclass and
    returns jint; in every engine state, hence also before setup and after
    kill, the count it returns is non-negative and the engine after the call is
    the engine before it. -/
theorem getNumDevices_pure_and_nonnegative (e : Engine K) :
    nativeGetNumDevices.args = [] ∧ nativeGetNumDevices.ret = CType.jint ∧
    0 ≤ e.getNumDevices.1 ∧ e.getNumDevices.2 = e ∧ e.exec Call.getNumDevices = e := by
  refine ⟨by decide, by decide, ?_, rfl, rfl⟩
  exact Int.ofNat_nonneg e.devices

/-- C7: in a sequence of calls that starts on a fresh engine, a step that comes
    before any setup is rejected: the engine is as it was, and the output
    arrays the caller passed come back as they were passed. -/
theorem step_before_setup_writes_nothing (n : Nat) (pre : List (Call K))
    (h : pre.all (fun c => !c.isSetup) = true)
    (inp : K.Input) (out : K.Output) (t dt : K.Scalar) :
    ((Engine.init K n).run pre).step inp out t dt = ((Engine.init K n).run pre, out, false) := by
  rw [run_without_setup (Engine.init K n) pre rfl h]
  rfl

/-- Witness of C7: a kill, a query and a step, all before any setup, followed by
    one more step. -/
theorem step_before_setup_writes_nothing_witness :
    sampleCalls.all (fun c => !c.isSetup) = true ∧
    ((Engine.init sampleBackend 2).run sampleCalls).step (7 : Nat) (41 : Nat) (2 : Nat) (1 : Nat) =
      ((Engine.init sampleBackend 2).run sampleCalls, (41 : Nat), false) :=
  ⟨rfl, @step_before_setup_writes_nothing sampleBackend 2 sampleCalls rfl (7 : Nat) (41 : Nat)
    (2 : Nat) (1 : Nat)⟩

/-- C8: on a fresh engine, setup with consistent arguments is accepted, and a
    kill that follows it with no step in between (queries may come in between)
    is accepted too; kill has no parameter after JNIEnv* and jclass and returns
    void, and the engine it leaves is in the killed phase with no device state
    and is terminal, every later call leaving it as it is. -/
theorem setup_then_kill_releases (n : Nat) (a : K.Args) (dt : K.Scalar)
    (h : K.consistent a = true) (q : Nat) :
    ((Engine.init K n).setupRun a dt).2 = true ∧
    ((((Engine.init K n).setupRun a dt).1.run (List.replicate q Call.getNumDevices)).kill).2
      = true ∧
    ((((Engine.init K n).setupRun a dt).1.run (List.replicate q Call.getNumDevices)).kill).1
      = { devices := n, phase := Phase.killed, buffers := none, clock := none } ∧
    (∀ c : Call K,
      ((((Engine.init K n).setupRun a dt).1.run
        (List.replicate q Call.getNumDevices)).kill).1.exec c =
      ((((Engine.init K n).setupRun a dt).1.run (List.replicate q Call.getNumDevices)).kill).1) ∧
    nativeKill.args = [] ∧ nativeKill.ret = CType.void := by
  rw [run_queries]
  have hs : (Engine.init K n).setupRun a dt =
      ({ devices := n, phase := Phase.running, buffers := some (K.upload a dt), clock := none },
        true) := by
    simp [Engine.setupRun, Engine.init, h]
  rw [hs]
  refine ⟨rfl, rfl, rfl, ?_, by decide, by decide⟩
  intro c
  exact exec_killed _ c rfl

/-- Witness of C8: setup on two consistent arrays, one query, then kill. -/
theorem setup_then_kill_releases_witness :
    sampleBackend.consistent ([3, 4] : List Nat) = true ∧
    ((((Engine.init sampleBackend 1).setupRun ([3, 4] : List Nat) (1 : Nat)).1.run
        (List.replicate 1 Call.getNumDevices)).kill).1
      = { devices := 1, phase := Phase.killed, buffers := none, clock := none } :=
  ⟨rfl, (@setup_then_kill_releases sampleBackend 1 ([3, 4] : List Nat) (1 : Nat) rfl 1).2.2.1⟩

end NengoGPU
